import Mathlib

/-
Shallow embedding of the Python-Nikocraft sources `nikocraft/window/rgb.py`
(RGB color value type, named color table) and `nikocraft/window/scene.py`
(Scene lifecycle class), together with theorems about color arithmetic,
clamping, hex (de)serialization, the named color table, and the Scene
accessors.

Conventions of the embedding:
- Python numbers that can be ints or floats are modelled as rationals (ℚ);
  channel values stored in a color are integers (ℤ), as `RGBColor.__new__`
  rounds its arguments with Python's `round` (banker's rounding, modelled
  by `pyRound`).
- Python operations that can raise are modelled with `Except PyError`.
- Python strings are modelled as `String` / `List Char`; `str.replace(old, "")`
  is modelled by the single-pass removal functions `removeHash` and
  `removeZeroX`, and `int(s, 16)` by `intBase16` (which, like Python, accepts
  surrounding whitespace, an optional sign and an optional 0x/0X prefix).
-/

/-- Errors raised by the modelled Python code: `ValueError` (raised by
`int(s, 16)` on malformed input) and `ZeroDivisionError`. -/
inductive PyError where
  | valueError : PyError
  | zeroDivisionError : PyError
deriving DecidableEq

instance {ε α : Type} [DecidableEq ε] [DecidableEq α] : DecidableEq (Except ε α) := fun x y =>
  match x, y with
  | .ok a, .ok b =>
    match decEq a b with
    | isTrue h => isTrue (by rw [h])
    | isFalse h => isFalse (fun hc => h (Except.ok.inj hc))
  | .ok _, .error _ => isFalse (fun hc => Except.noConfusion hc)
  | .error _, .ok _ => isFalse (fun hc => Except.noConfusion hc)
  | .error a, .error b =>
    match decEq a b with
    | isTrue h => isTrue (by rw [h])
    | isFalse h => isFalse (fun hc => h (Except.error.inj hc))

/-- Python's builtin `round` on an exact (rational) value: round to the
nearest integer, ties going to the even integer. -/
def pyRound (q : ℚ) : ℤ :=
  if q - ⌊q⌋ < 0.5 then ⌊q⌋
  else if 0.5 < q - ⌊q⌋ then ⌊q⌋ + 1
  else if ⌊q⌋ % 2 = 0 then ⌊q⌋ else ⌊q⌋ + 1

/-- The `RGBColor` class of `rgb.py`: a triple of integer channel values
(the class stores them as a 3-tuple; equality is component-wise, matching
its `__eq__`). -/
@[ext]
structure RGBColor where
  red : ℤ
  green : ℤ
  blue : ℤ
deriving DecidableEq

/-- `RGBColor.__new__(cls, red, green, blue)`: rounds each argument with
`round` and stores the results. -/
def RGBColor.new (red green blue : ℚ) : RGBColor :=
  ⟨pyRound red, pyRound green, pyRound blue⟩

/-- The per-channel clipping performed by the loop in `RGBColor.clamp`:
values below 0 become 0, values above 255 become 255. -/
def clampVal (n : ℤ) : ℤ :=
  if n < 0 then 0 else if n > 255 then 255 else n

/-- `RGBColor.clamp`: clips each channel to [0, 255] and builds a new
`RGBColor` from the results. -/
def RGBColor.clamp (c : RGBColor) : RGBColor :=
  RGBColor.new (clampVal c.red) (clampVal c.green) (clampVal c.blue)

/-- `RGBColor.__add__`: component-wise sum, then `clamp`. -/
def RGBColor.add (a b : RGBColor) : RGBColor :=
  (RGBColor.new (a.red + b.red : ℤ) (a.green + b.green : ℤ) (a.blue + b.blue : ℤ)).clamp

/-- `RGBColor.__sub__`: component-wise difference, then `clamp`. -/
def RGBColor.sub (a b : RGBColor) : RGBColor :=
  (RGBColor.new (a.red - b.red : ℤ) (a.green - b.green : ℤ) (a.blue - b.blue : ℤ)).clamp

/-- `RGBColor.__mul__`: each channel times a scalar factor, then `clamp`
(the constructor rounds before clamping). -/
def RGBColor.mul (c : RGBColor) (factor : ℚ) : RGBColor :=
  (RGBColor.new (c.red * factor) (c.green * factor) (c.blue * factor)).clamp

/-- `RGBColor.__truediv__`: each channel divided by a scalar, then `clamp`;
raises `ZeroDivisionError` when the divisor is zero. -/
def RGBColor.truediv (c : RGBColor) (divisor : ℚ) : Except PyError RGBColor :=
  if divisor = 0 then .error .zeroDivisionError
  else .ok (RGBColor.new (c.red / divisor) (c.green / divisor) (c.blue / divisor)).clamp

/-- `RGBColor.__floordiv__`: each channel floor-divided by a scalar, then
`clamp`; raises `ZeroDivisionError` when the divisor is zero. -/
def RGBColor.floordiv (c : RGBColor) (divisor : ℚ) : Except PyError RGBColor :=
  if divisor = 0 then .error .zeroDivisionError
  else .ok (RGBColor.new (⌊(c.red : ℚ) / divisor⌋ : ℤ) (⌊(c.green : ℚ) / divisor⌋ : ℤ)
    (⌊(c.blue : ℚ) / divisor⌋ : ℤ)).clamp

/-- `RGBColor.mix`: `((self + color) * 0.5).clamp()`. Note that `__add__`
itself already clamps its result before the multiplication by 0.5. -/
def RGBColor.mix (a b : RGBColor) : RGBColor :=
  ((a.add b).mul 0.5).clamp

/-- Hex digit character for a value below 16, lowercase (as produced by
Python's `%x` formatting). -/
def toHexChar (n : ℕ) : Char :=
  if n < 10 then Char.ofNat ('0'.toNat + n) else Char.ofNat ('a'.toNat + n - 10)

/-- Minimal lowercase hex digit string of a natural number (fuel-driven so
that it is structurally recursive and kernel-evaluable). -/
def natHexDigitsAux : ℕ → ℕ → List Char
  | 0, _ => []
  | fuel + 1, n =>
    if n < 16 then [toHexChar n]
    else natHexDigitsAux fuel (n / 16) ++ [toHexChar (n % 16)]

/-- Minimal lowercase hex digit string of a natural number. -/
def natHexDigits (n : ℕ) : List Char := natHexDigitsAux (n + 1) n

/-- Python's `'%02x' % n`: lowercase hex, zero-padded to a minimum width
of 2 (the sign of a negative value counts towards the width). -/
def fmt02x (n : ℤ) : List Char :=
  if n < 0 then '-' :: natHexDigits n.natAbs
  else
    let ds := natHexDigits n.toNat
    List.replicate (2 - ds.length) '0' ++ ds

/-- `RGBColor.hex`: the string `'#%02x%02x%02x' % self`. -/
def RGBColor.hex (c : RGBColor) : String :=
  String.mk ('#' :: (fmt02x c.red ++ fmt02x c.green ++ fmt02x c.blue))

/-- The characters Python's `int(str, base)` strips from both ends of its
argument (Unicode whitespace). -/
def pySpaceChars : List Char :=
  [' ', '\t', '\n', '\r', '\x0b', '\x0c', '\x1c', '\x1d', '\x1e', '\x1f',
   '\x85', '\xa0', '\u1680', '\u2000', '\u2001', '\u2002', '\u2003', '\u2004',
   '\u2005', '\u2006', '\u2007', '\u2008', '\u2009', '\u200a', '\u2028',
   '\u2029', '\u202f', '\u205f', '\u3000']

def isPySpace (c : Char) : Bool := pySpaceChars.contains c

/-- Value of a single hex digit character (0-9, a-f, A-F), if any. -/
def hexVal (c : Char) : Option ℕ :=
  if '0' ≤ c ∧ c ≤ '9' then some (c.toNat - '0'.toNat)
  else if 'a' ≤ c ∧ c ≤ 'f' then some (c.toNat - 'a'.toNat + 10)
  else if 'A' ≤ c ∧ c ≤ 'F' then some (c.toNat - 'A'.toNat + 10)
  else none

/-- Value of a nonempty string of hex digits, if all characters are hex
digits. -/
def hexDigitsVal : List Char → Option ℕ
  | [] => none
  | l => l.foldlM (fun acc c => (hexVal c).map (fun d => acc * 16 + d)) 0

/-- Strip one leading `0x` / `0X` base prefix, as `int(s, 16)` allows. -/
def dropHexPrefix : List Char → List Char
  | '0' :: 'x' :: r => r
  | '0' :: 'X' :: r => r
  | l => l

/-- Python's `int(s, 16)` on the character list of `s`: strips surrounding
whitespace, accepts an optional sign and an optional `0x`/`0X` prefix, then
requires a nonempty run of hex digits.  Returns `none` where Python raises
`ValueError`. -/
def intBase16 (l : List Char) : Option ℤ :=
  let t := ((l.dropWhile isPySpace).reverse.dropWhile isPySpace).reverse
  match t with
  | '+' :: r => (hexDigitsVal (dropHexPrefix r)).map (fun v => (v : ℤ))
  | '-' :: r => (hexDigitsVal (dropHexPrefix r)).map (fun v => -(v : ℤ))
  | _ => (hexDigitsVal (dropHexPrefix t)).map (fun v => (v : ℤ))

/-- Python's `value.replace("#", "")`: remove every `'#'` in one pass. -/
def removeHash : List Char → List Char
  | [] => []
  | c :: rest => if c = '#' then removeHash rest else c :: removeHash rest

/-- Python's `value.replace("0x", "")`: remove every non-overlapping
occurrence of the two-character substring `0x` in one left-to-right pass. -/
def removeZeroX : List Char → List Char
  | [] => []
  | [c] => [c]
  | c1 :: c2 :: rest =>
    if c1 = '0' ∧ c2 = 'x' then removeZeroX rest
    else c1 :: removeZeroX (c2 :: rest)

/-- Whether the two-character substring `0x` occurs in a character list. -/
def hasZeroX : List Char → Bool
  | [] => false
  | [_] => false
  | c1 :: c2 :: rest => (c1 == '0' && c2 == 'x') || hasZeroX (c2 :: rest)

/-- The cleaning step of `RGBColor.from_hex`:
`value.replace("#", "").replace("0x", "")`. -/
def cleanedOf (value : String) : List Char :=
  removeZeroX (removeHash value.data)

/-- One parsing step of `RGBColor.from_hex`: `int(value[i:i+2], 16)` on the
(already cleaned) string, where Python's slice `value[i:i+2]` truncates at
the end of the string. -/
def parse2 (l : List Char) (i : ℕ) : Option ℤ :=
  intBase16 ((l.drop i).take 2)

/-- `RGBColor.from_hex`: cleans the string, parses the three 2-character
slices at offsets 0, 2, 4 with `int(_, 16)` and builds an `RGBColor`;
any slice Python's `int` rejects raises `ValueError`. -/
def RGBColor.from_hex (value : String) : Except PyError RGBColor :=
  match parse2 (cleanedOf value) 0, parse2 (cleanedOf value) 2, parse2 (cleanedOf value) 4 with
  | some r, some g, some v => .ok (RGBColor.new r g v)
  | _, _, _ => .error .valueError

/-- The sixteen lowercase hex digit characters; used to state, in the
spec's vocabulary, that `hex` emits lowercase hex digits. -/
def lowercaseHexDigits : List Char := ("0123456789abcdef").data

/-- The `RGB` color library of `rgb.py`: the full list of named color
constants, in source order, as (name, value) pairs. -/
def RGB.table : List (String × RGBColor) := [
  ("ALICEBLUE", RGBColor.new 240 248 255),
  ("ANTIQUEWHITE", RGBColor.new 250 235 215),
  ("ANTIQUEWHITE1", RGBColor.new 255 239 219),
  ("ANTIQUEWHITE2", RGBColor.new 238 223 204),
  ("ANTIQUEWHITE3", RGBColor.new 205 192 176),
  ("ANTIQUEWHITE4", RGBColor.new 139 131 120),
  ("AQUA", RGBColor.new 0 255 255),
  ("AQUAMARINE1", RGBColor.new 127 255 212),
  ("AQUAMARINE2", RGBColor.new 118 238 198),
  ("AQUAMARINE3", RGBColor.new 102 205 170),
  ("AQUAMARINE4", RGBColor.new 69 139 116),
  ("AZURE1", RGBColor.new 240 255 255),
  ("AZURE2", RGBColor.new 224 238 238),
  ("AZURE3", RGBColor.new 193 205 205),
  ("AZURE4", RGBColor.new 131 139 139),
  ("BANANA", RGBColor.new 227 207 87),
  ("BEIGE", RGBColor.new 245 245 220),
  ("BISQUE1", RGBColor.new 255 228 196),
  ("BISQUE2", RGBColor.new 238 213 183),
  ("BISQUE3", RGBColor.new 205 183 158),
  ("BISQUE4", RGBColor.new 139 125 107),
  ("BLACK", RGBColor.new 0 0 0),
  ("BLANCHEDALMOND", RGBColor.new 255 235 205),
  ("BLUE", RGBColor.new 0 0 255),
  ("BLUE2", RGBColor.new 0 0 238),
  ("BLUE3", RGBColor.new 0 0 205),
  ("BLUE4", RGBColor.new 0 0 139),
  ("BLUEVIOLET", RGBColor.new 138 43 226),
  ("BRICK", RGBColor.new 156 102 31),
  ("BROWN", RGBColor.new 165 42 42),
  ("BROWN1", RGBColor.new 255 64 64),
  ("BROWN2", RGBColor.new 238 59 59),
  ("BROWN3", RGBColor.new 205 51 51),
  ("BROWN4", RGBColor.new 139 35 35),
  ("BURLYWOOD", RGBColor.new 222 184 135),
  ("BURLYWOOD1", RGBColor.new 255 211 155),
  ("BURLYWOOD2", RGBColor.new 238 197 145),
  ("BURLYWOOD3", RGBColor.new 205 170 125),
  ("BURLYWOOD4", RGBColor.new 139 115 85),
  ("BURNTSIENNA", RGBColor.new 138 54 15),
  ("BURNTUMBER", RGBColor.new 138 51 36),
  ("CADETBLUE", RGBColor.new 95 158 160),
  ("CADETBLUE1", RGBColor.new 152 245 255),
  ("CADETBLUE2", RGBColor.new 142 229 238),
  ("CADETBLUE3", RGBColor.new 122 197 205),
  ("CADETBLUE4", RGBColor.new 83 134 139),
  ("CADMIUMORANGE", RGBColor.new 255 97 3),
  ("CADMIUMYELLOW", RGBColor.new 255 153 18),
  ("CARROT", RGBColor.new 237 145 33),
  ("CHARTREUSE1", RGBColor.new 127 255 0),
  ("CHARTREUSE2", RGBColor.new 118 238 0),
  ("CHARTREUSE3", RGBColor.new 102 205 0),
  ("CHARTREUSE4", RGBColor.new 69 139 0),
  ("CHOCOLATE", RGBColor.new 210 105 30),
  ("CHOCOLATE1", RGBColor.new 255 127 36),
  ("CHOCOLATE2", RGBColor.new 238 118 33),
  ("CHOCOLATE3", RGBColor.new 205 102 29),
  ("CHOCOLATE4", RGBColor.new 139 69 19),
  ("COBALT", RGBColor.new 61 89 171),
  ("COBALTGREEN", RGBColor.new 61 145 64),
  ("COLDGREY", RGBColor.new 128 138 135),
  ("CORAL", RGBColor.new 255 127 80),
  ("CORAL1", RGBColor.new 255 114 86),
  ("CORAL2", RGBColor.new 238 106 80),
  ("CORAL3", RGBColor.new 205 91 69),
  ("CORAL4", RGBColor.new 139 62 47),
  ("CORNFLOWERBLUE", RGBColor.new 100 149 237),
  ("CORNSILK1", RGBColor.new 255 248 220),
  ("CORNSILK2", RGBColor.new 238 232 205),
  ("CORNSILK3", RGBColor.new 205 200 177),
  ("CORNSILK4", RGBColor.new 139 136 120),
  ("CRIMSON", RGBColor.new 220 20 60),
  ("CYAN2", RGBColor.new 0 238 238),
  ("CYAN3", RGBColor.new 0 205 205),
  ("CYAN4", RGBColor.new 0 139 139),
  ("DARKGOLDENROD", RGBColor.new 184 134 11),
  ("DARKGOLDENROD1", RGBColor.new 255 185 15),
  ("DARKGOLDENROD2", RGBColor.new 238 173 14),
  ("DARKGOLDENROD3", RGBColor.new 205 149 12),
  ("DARKGOLDENROD4", RGBColor.new 139 101 8),
  ("DARKGRAY", RGBColor.new 169 169 169),
  ("DARKGREEN", RGBColor.new 0 100 0),
  ("DARKKHAKI", RGBColor.new 189 183 107),
  ("DARKOLIVEGREEN", RGBColor.new 85 107 47),
  ("DARKOLIVEGREEN1", RGBColor.new 202 255 112),
  ("DARKOLIVEGREEN2", RGBColor.new 188 238 104),
  ("DARKOLIVEGREEN3", RGBColor.new 162 205 90),
  ("DARKOLIVEGREEN4", RGBColor.new 110 139 61),
  ("DARKORANGE", RGBColor.new 255 140 0),
  ("DARKORANGE1", RGBColor.new 255 127 0),
  ("DARKORANGE2", RGBColor.new 238 118 0),
  ("DARKORANGE3", RGBColor.new 205 102 0),
  ("DARKORANGE4", RGBColor.new 139 69 0),
  ("DARKORCHID", RGBColor.new 153 50 204),
  ("DARKORCHID1", RGBColor.new 191 62 255),
  ("DARKORCHID2", RGBColor.new 178 58 238),
  ("DARKORCHID3", RGBColor.new 154 50 205),
  ("DARKORCHID4", RGBColor.new 104 34 139),
  ("DARKSALMON", RGBColor.new 233 150 122),
  ("DARKSEAGREEN", RGBColor.new 143 188 143),
  ("DARKSEAGREEN1", RGBColor.new 193 255 193),
  ("DARKSEAGREEN2", RGBColor.new 180 238 180),
  ("DARKSEAGREEN3", RGBColor.new 155 205 155),
  ("DARKSEAGREEN4", RGBColor.new 105 139 105),
  ("DARKSLATEBLUE", RGBColor.new 72 61 139),
  ("DARKSLATEGRAY", RGBColor.new 47 79 79),
  ("DARKSLATEGRAY1", RGBColor.new 151 255 255),
  ("DARKSLATEGRAY2", RGBColor.new 141 238 238),
  ("DARKSLATEGRAY3", RGBColor.new 121 205 205),
  ("DARKSLATEGRAY4", RGBColor.new 82 139 139),
  ("DARKTURQUOISE", RGBColor.new 0 206 209),
  ("DARKVIOLET", RGBColor.new 148 0 211),
  ("DEEPPINK1", RGBColor.new 255 20 147),
  ("DEEPPINK2", RGBColor.new 238 18 137),
  ("DEEPPINK3", RGBColor.new 205 16 118),
  ("DEEPPINK4", RGBColor.new 139 10 80),
  ("DEEPSKYBLUE1", RGBColor.new 0 191 255),
  ("DEEPSKYBLUE2", RGBColor.new 0 178 238),
  ("DEEPSKYBLUE3", RGBColor.new 0 154 205),
  ("DEEPSKYBLUE4", RGBColor.new 0 104 139),
  ("DIMGRAY", RGBColor.new 105 105 105),
  ("DODGERBLUE1", RGBColor.new 30 144 255),
  ("DODGERBLUE2", RGBColor.new 28 134 238),
  ("DODGERBLUE3", RGBColor.new 24 116 205),
  ("DODGERBLUE4", RGBColor.new 16 78 139),
  ("EGGSHELL", RGBColor.new 252 230 201),
  ("EMERALDGREEN", RGBColor.new 0 201 87),
  ("FIREBRICK", RGBColor.new 178 34 34),
  ("FIREBRICK1", RGBColor.new 255 48 48),
  ("FIREBRICK2", RGBColor.new 238 44 44),
  ("FIREBRICK3", RGBColor.new 205 38 38),
  ("FIREBRICK4", RGBColor.new 139 26 26),
  ("FLESH", RGBColor.new 255 125 64),
  ("FLORALWHITE", RGBColor.new 255 250 240),
  ("FORESTGREEN", RGBColor.new 34 139 34),
  ("GAINSBORO", RGBColor.new 220 220 220),
  ("GHOSTWHITE", RGBColor.new 248 248 255),
  ("GOLD1", RGBColor.new 255 215 0),
  ("GOLD2", RGBColor.new 238 201 0),
  ("GOLD3", RGBColor.new 205 173 0),
  ("GOLD4", RGBColor.new 139 117 0),
  ("GOLDENROD", RGBColor.new 218 165 32),
  ("GOLDENROD1", RGBColor.new 255 193 37),
  ("GOLDENROD2", RGBColor.new 238 180 34),
  ("GOLDENROD3", RGBColor.new 205 155 29),
  ("GOLDENROD4", RGBColor.new 139 105 20),
  ("GRAY", RGBColor.new 128 128 128),
  ("GRAY1", RGBColor.new 3 3 3),
  ("GRAY10", RGBColor.new 26 26 26),
  ("GRAY11", RGBColor.new 28 28 28),
  ("GRAY12", RGBColor.new 31 31 31),
  ("GRAY13", RGBColor.new 33 33 33),
  ("GRAY14", RGBColor.new 36 36 36),
  ("GRAY15", RGBColor.new 38 38 38),
  ("GRAY16", RGBColor.new 41 41 41),
  ("GRAY17", RGBColor.new 43 43 43),
  ("GRAY18", RGBColor.new 46 46 46),
  ("GRAY19", RGBColor.new 48 48 48),
  ("GRAY2", RGBColor.new 5 5 5),
  ("GRAY20", RGBColor.new 51 51 51),
  ("GRAY21", RGBColor.new 54 54 54),
  ("GRAY22", RGBColor.new 56 56 56),
  ("GRAY23", RGBColor.new 59 59 59),
  ("GRAY24", RGBColor.new 61 61 61),
  ("GRAY25", RGBColor.new 64 64 64),
  ("GRAY26", RGBColor.new 66 66 66),
  ("GRAY27", RGBColor.new 69 69 69),
  ("GRAY28", RGBColor.new 71 71 71),
  ("GRAY29", RGBColor.new 74 74 74),
  ("GRAY3", RGBColor.new 8 8 8),
  ("GRAY30", RGBColor.new 77 77 77),
  ("GRAY31", RGBColor.new 79 79 79),
  ("GRAY32", RGBColor.new 82 82 82),
  ("GRAY33", RGBColor.new 84 84 84),
  ("GRAY34", RGBColor.new 87 87 87),
  ("GRAY35", RGBColor.new 89 89 89),
  ("GRAY36", RGBColor.new 92 92 92),
  ("GRAY37", RGBColor.new 94 94 94),
  ("GRAY38", RGBColor.new 97 97 97),
  ("GRAY39", RGBColor.new 99 99 99),
  ("GRAY4", RGBColor.new 10 10 10),
  ("GRAY40", RGBColor.new 102 102 102),
  ("GRAY42", RGBColor.new 107 107 107),
  ("GRAY43", RGBColor.new 110 110 110),
  ("GRAY44", RGBColor.new 112 112 112),
  ("GRAY45", RGBColor.new 115 115 115),
  ("GRAY46", RGBColor.new 117 117 117),
  ("GRAY47", RGBColor.new 120 120 120),
  ("GRAY48", RGBColor.new 122 122 122),
  ("GRAY49", RGBColor.new 125 125 125),
  ("GRAY5", RGBColor.new 13 13 13),
  ("GRAY50", RGBColor.new 127 127 127),
  ("GRAY51", RGBColor.new 130 130 130),
  ("GRAY52", RGBColor.new 133 133 133),
  ("GRAY53", RGBColor.new 135 135 135),
  ("GRAY54", RGBColor.new 138 138 138),
  ("GRAY55", RGBColor.new 140 140 140),
  ("GRAY56", RGBColor.new 143 143 143),
  ("GRAY57", RGBColor.new 145 145 145),
  ("GRAY58", RGBColor.new 148 148 148),
  ("GRAY59", RGBColor.new 150 150 150),
  ("GRAY6", RGBColor.new 15 15 15),
  ("GRAY60", RGBColor.new 153 153 153),
  ("GRAY61", RGBColor.new 156 156 156),
  ("GRAY62", RGBColor.new 158 158 158),
  ("GRAY63", RGBColor.new 161 161 161),
  ("GRAY64", RGBColor.new 163 163 163),
  ("GRAY65", RGBColor.new 166 166 166),
  ("GRAY66", RGBColor.new 168 168 168),
  ("GRAY67", RGBColor.new 171 171 171),
  ("GRAY68", RGBColor.new 173 173 173),
  ("GRAY69", RGBColor.new 176 176 176),
  ("GRAY7", RGBColor.new 18 18 18),
  ("GRAY70", RGBColor.new 179 179 179),
  ("GRAY71", RGBColor.new 181 181 181),
  ("GRAY72", RGBColor.new 184 184 184),
  ("GRAY73", RGBColor.new 186 186 186),
  ("GRAY74", RGBColor.new 189 189 189),
  ("GRAY75", RGBColor.new 191 191 191),
  ("GRAY76", RGBColor.new 194 194 194),
  ("GRAY77", RGBColor.new 196 196 196),
  ("GRAY78", RGBColor.new 199 199 199),
  ("GRAY79", RGBColor.new 201 201 201),
  ("GRAY8", RGBColor.new 20 20 20),
  ("GRAY80", RGBColor.new 204 204 204),
  ("GRAY81", RGBColor.new 207 207 207),
  ("GRAY82", RGBColor.new 209 209 209),
  ("GRAY83", RGBColor.new 212 212 212),
  ("GRAY84", RGBColor.new 214 214 214),
  ("GRAY85", RGBColor.new 217 217 217),
  ("GRAY86", RGBColor.new 219 219 219),
  ("GRAY87", RGBColor.new 222 222 222),
  ("GRAY88", RGBColor.new 224 224 224),
  ("GRAY89", RGBColor.new 227 227 227),
  ("GRAY9", RGBColor.new 23 23 23),
  ("GRAY90", RGBColor.new 229 229 229),
  ("GRAY91", RGBColor.new 232 232 232),
  ("GRAY92", RGBColor.new 235 235 235),
  ("GRAY93", RGBColor.new 237 237 237),
  ("GRAY94", RGBColor.new 240 240 240),
  ("GRAY95", RGBColor.new 242 242 242),
  ("GRAY97", RGBColor.new 247 247 247),
  ("GRAY98", RGBColor.new 250 250 250),
  ("GRAY99", RGBColor.new 252 252 252),
  ("GREEN", RGBColor.new 0 128 0),
  ("GREEN1", RGBColor.new 0 255 0),
  ("GREEN2", RGBColor.new 0 238 0),
  ("GREEN3", RGBColor.new 0 205 0),
  ("GREEN4", RGBColor.new 0 139 0),
  ("GREENYELLOW", RGBColor.new 173 255 47),
  ("HONEYDEW1", RGBColor.new 240 255 240),
  ("HONEYDEW2", RGBColor.new 224 238 224),
  ("HONEYDEW3", RGBColor.new 193 205 193),
  ("HONEYDEW4", RGBColor.new 131 139 131),
  ("HOTPINK", RGBColor.new 255 105 180),
  ("HOTPINK1", RGBColor.new 255 110 180),
  ("HOTPINK2", RGBColor.new 238 106 167),
  ("HOTPINK3", RGBColor.new 205 96 144),
  ("HOTPINK4", RGBColor.new 139 58 98),
  ("INDIANRED", RGBColor.new 205 92 92),
  ("INDIANRED1", RGBColor.new 255 106 106),
  ("INDIANRED2", RGBColor.new 238 99 99),
  ("INDIANRED3", RGBColor.new 205 85 85),
  ("INDIANRED4", RGBColor.new 139 58 58),
  ("INDIGO", RGBColor.new 75 0 130),
  ("IVORY1", RGBColor.new 255 255 240),
  ("IVORY2", RGBColor.new 238 238 224),
  ("IVORY3", RGBColor.new 205 205 193),
  ("IVORY4", RGBColor.new 139 139 131),
  ("IVORYBLACK", RGBColor.new 41 36 33),
  ("KHAKI", RGBColor.new 240 230 140),
  ("KHAKI1", RGBColor.new 255 246 143),
  ("KHAKI2", RGBColor.new 238 230 133),
  ("KHAKI3", RGBColor.new 205 198 115),
  ("KHAKI4", RGBColor.new 139 134 78),
  ("LAVENDER", RGBColor.new 230 230 250),
  ("LAVENDERBLUSH1", RGBColor.new 255 240 245),
  ("LAVENDERBLUSH2", RGBColor.new 238 224 229),
  ("LAVENDERBLUSH3", RGBColor.new 205 193 197),
  ("LAVENDERBLUSH4", RGBColor.new 139 131 134),
  ("LAWNGREEN", RGBColor.new 124 252 0),
  ("LEMONCHIFFON1", RGBColor.new 255 250 205),
  ("LEMONCHIFFON2", RGBColor.new 238 233 191),
  ("LEMONCHIFFON3", RGBColor.new 205 201 165),
  ("LEMONCHIFFON4", RGBColor.new 139 137 112),
  ("LIGHTBLUE", RGBColor.new 173 216 230),
  ("LIGHTBLUE1", RGBColor.new 191 239 255),
  ("LIGHTBLUE2", RGBColor.new 178 223 238),
  ("LIGHTBLUE3", RGBColor.new 154 192 205),
  ("LIGHTBLUE4", RGBColor.new 104 131 139),
  ("LIGHTCORAL", RGBColor.new 240 128 128),
  ("LIGHTCYAN1", RGBColor.new 224 255 255),
  ("LIGHTCYAN2", RGBColor.new 209 238 238),
  ("LIGHTCYAN3", RGBColor.new 180 205 205),
  ("LIGHTCYAN4", RGBColor.new 122 139 139),
  ("LIGHTGOLDENROD1", RGBColor.new 255 236 139),
  ("LIGHTGOLDENROD2", RGBColor.new 238 220 130),
  ("LIGHTGOLDENROD3", RGBColor.new 205 190 112),
  ("LIGHTGOLDENROD4", RGBColor.new 139 129 76),
  ("LIGHTGOLDENRODYELLOW", RGBColor.new 250 250 210),
  ("LIGHTGREY", RGBColor.new 211 211 211),
  ("LIGHTPINK", RGBColor.new 255 182 193),
  ("LIGHTPINK1", RGBColor.new 255 174 185),
  ("LIGHTPINK2", RGBColor.new 238 162 173),
  ("LIGHTPINK3", RGBColor.new 205 140 149),
  ("LIGHTPINK4", RGBColor.new 139 95 101),
  ("LIGHTSALMON1", RGBColor.new 255 160 122),
  ("LIGHTSALMON2", RGBColor.new 238 149 114),
  ("LIGHTSALMON3", RGBColor.new 205 129 98),
  ("LIGHTSALMON4", RGBColor.new 139 87 66),
  ("LIGHTSEAGREEN", RGBColor.new 32 178 170),
  ("LIGHTSKYBLUE", RGBColor.new 135 206 250),
  ("LIGHTSKYBLUE1", RGBColor.new 176 226 255),
  ("LIGHTSKYBLUE2", RGBColor.new 164 211 238),
  ("LIGHTSKYBLUE3", RGBColor.new 141 182 205),
  ("LIGHTSKYBLUE4", RGBColor.new 96 123 139),
  ("LIGHTSLATEBLUE", RGBColor.new 132 112 255),
  ("LIGHTSLATEGRAY", RGBColor.new 119 136 153),
  ("LIGHTSTEELBLUE", RGBColor.new 176 196 222),
  ("LIGHTSTEELBLUE1", RGBColor.new 202 225 255),
  ("LIGHTSTEELBLUE2", RGBColor.new 188 210 238),
  ("LIGHTSTEELBLUE3", RGBColor.new 162 181 205),
  ("LIGHTSTEELBLUE4", RGBColor.new 110 123 139),
  ("LIGHTYELLOW1", RGBColor.new 255 255 224),
  ("LIGHTYELLOW2", RGBColor.new 238 238 209),
  ("LIGHTYELLOW3", RGBColor.new 205 205 180),
  ("LIGHTYELLOW4", RGBColor.new 139 139 122),
  ("LIMEGREEN", RGBColor.new 50 205 50),
  ("LINEN", RGBColor.new 250 240 230),
  ("MAGENTA", RGBColor.new 255 0 255),
  ("MAGENTA2", RGBColor.new 238 0 238),
  ("MAGENTA3", RGBColor.new 205 0 205),
  ("MAGENTA4", RGBColor.new 139 0 139),
  ("MANGANESEBLUE", RGBColor.new 3 168 158),
  ("MAROON", RGBColor.new 128 0 0),
  ("MAROON1", RGBColor.new 255 52 179),
  ("MAROON2", RGBColor.new 238 48 167),
  ("MAROON3", RGBColor.new 205 41 144),
  ("MAROON4", RGBColor.new 139 28 98),
  ("MEDIUMORCHID", RGBColor.new 186 85 211),
  ("MEDIUMORCHID1", RGBColor.new 224 102 255),
  ("MEDIUMORCHID2", RGBColor.new 209 95 238),
  ("MEDIUMORCHID3", RGBColor.new 180 82 205),
  ("MEDIUMORCHID4", RGBColor.new 122 55 139),
  ("MEDIUMPURPLE", RGBColor.new 147 112 219),
  ("MEDIUMPURPLE1", RGBColor.new 171 130 255),
  ("MEDIUMPURPLE2", RGBColor.new 159 121 238),
  ("MEDIUMPURPLE3", RGBColor.new 137 104 205),
  ("MEDIUMPURPLE4", RGBColor.new 93 71 139),
  ("MEDIUMSEAGREEN", RGBColor.new 60 179 113),
  ("MEDIUMSLATEBLUE", RGBColor.new 123 104 238),
  ("MEDIUMSPRINGGREEN", RGBColor.new 0 250 154),
  ("MEDIUMTURQUOISE", RGBColor.new 72 209 204),
  ("MEDIUMVIOLETRED", RGBColor.new 199 21 133),
  ("MELON", RGBColor.new 227 168 105),
  ("MIDNIGHTBLUE", RGBColor.new 25 25 112),
  ("MINT", RGBColor.new 189 252 201),
  ("MINTCREAM", RGBColor.new 245 255 250),
  ("MISTYROSE1", RGBColor.new 255 228 225),
  ("MISTYROSE2", RGBColor.new 238 213 210),
  ("MISTYROSE3", RGBColor.new 205 183 181),
  ("MISTYROSE4", RGBColor.new 139 125 123),
  ("MOCCASIN", RGBColor.new 255 228 181),
  ("NAVAJOWHITE1", RGBColor.new 255 222 173),
  ("NAVAJOWHITE2", RGBColor.new 238 207 161),
  ("NAVAJOWHITE3", RGBColor.new 205 179 139),
  ("NAVAJOWHITE4", RGBColor.new 139 121 94),
  ("NAVY", RGBColor.new 0 0 128),
  ("OLDLACE", RGBColor.new 253 245 230),
  ("OLIVE", RGBColor.new 128 128 0),
  ("OLIVEDRAB", RGBColor.new 107 142 35),
  ("OLIVEDRAB1", RGBColor.new 192 255 62),
  ("OLIVEDRAB2", RGBColor.new 179 238 58),
  ("OLIVEDRAB3", RGBColor.new 154 205 50),
  ("OLIVEDRAB4", RGBColor.new 105 139 34),
  ("ORANGE", RGBColor.new 255 128 0),
  ("ORANGE1", RGBColor.new 255 165 0),
  ("ORANGE2", RGBColor.new 238 154 0),
  ("ORANGE3", RGBColor.new 205 133 0),
  ("ORANGE4", RGBColor.new 139 90 0),
  ("ORANGERED1", RGBColor.new 255 69 0),
  ("ORANGERED2", RGBColor.new 238 64 0),
  ("ORANGERED3", RGBColor.new 205 55 0),
  ("ORANGERED4", RGBColor.new 139 37 0),
  ("ORCHID", RGBColor.new 218 112 214),
  ("ORCHID1", RGBColor.new 255 131 250),
  ("ORCHID2", RGBColor.new 238 122 233),
  ("ORCHID3", RGBColor.new 205 105 201),
  ("ORCHID4", RGBColor.new 139 71 137),
  ("PALEGOLDENROD", RGBColor.new 238 232 170),
  ("PALEGREEN", RGBColor.new 152 251 152),
  ("PALEGREEN1", RGBColor.new 154 255 154),
  ("PALEGREEN2", RGBColor.new 144 238 144),
  ("PALEGREEN3", RGBColor.new 124 205 124),
  ("PALEGREEN4", RGBColor.new 84 139 84),
  ("PALETURQUOISE1", RGBColor.new 187 255 255),
  ("PALETURQUOISE2", RGBColor.new 174 238 238),
  ("PALETURQUOISE3", RGBColor.new 150 205 205),
  ("PALETURQUOISE4", RGBColor.new 102 139 139),
  ("PALEVIOLETRED", RGBColor.new 219 112 147),
  ("PALEVIOLETRED1", RGBColor.new 255 130 171),
  ("PALEVIOLETRED2", RGBColor.new 238 121 159),
  ("PALEVIOLETRED3", RGBColor.new 205 104 137),
  ("PALEVIOLETRED4", RGBColor.new 139 71 93),
  ("PAPAYAWHIP", RGBColor.new 255 239 213),
  ("PEACHPUFF1", RGBColor.new 255 218 185),
  ("PEACHPUFF2", RGBColor.new 238 203 173),
  ("PEACHPUFF3", RGBColor.new 205 175 149),
  ("PEACHPUFF4", RGBColor.new 139 119 101),
  ("PEACOCK", RGBColor.new 51 161 201),
  ("PINK", RGBColor.new 255 192 203),
  ("PINK1", RGBColor.new 255 181 197),
  ("PINK2", RGBColor.new 238 169 184),
  ("PINK3", RGBColor.new 205 145 158),
  ("PINK4", RGBColor.new 139 99 108),
  ("PLUM", RGBColor.new 221 160 221),
  ("PLUM1", RGBColor.new 255 187 255),
  ("PLUM2", RGBColor.new 238 174 238),
  ("PLUM3", RGBColor.new 205 150 205),
  ("PLUM4", RGBColor.new 139 102 139),
  ("POWDERBLUE", RGBColor.new 176 224 230),
  ("PURPLE", RGBColor.new 128 0 128),
  ("PURPLE1", RGBColor.new 155 48 255),
  ("PURPLE2", RGBColor.new 145 44 238),
  ("PURPLE3", RGBColor.new 125 38 205),
  ("PURPLE4", RGBColor.new 85 26 139),
  ("RASPBERRY", RGBColor.new 135 38 87),
  ("RAWSIENNA", RGBColor.new 199 97 20),
  ("RED1", RGBColor.new 255 0 0),
  ("RED2", RGBColor.new 238 0 0),
  ("RED3", RGBColor.new 205 0 0),
  ("RED4", RGBColor.new 139 0 0),
  ("ROSYBROWN", RGBColor.new 188 143 143),
  ("ROSYBROWN1", RGBColor.new 255 193 193),
  ("ROSYBROWN2", RGBColor.new 238 180 180),
  ("ROSYBROWN3", RGBColor.new 205 155 155),
  ("ROSYBROWN4", RGBColor.new 139 105 105),
  ("ROYALBLUE", RGBColor.new 65 105 225),
  ("ROYALBLUE1", RGBColor.new 72 118 255),
  ("ROYALBLUE2", RGBColor.new 67 110 238),
  ("ROYALBLUE3", RGBColor.new 58 95 205),
  ("ROYALBLUE4", RGBColor.new 39 64 139),
  ("SALMON", RGBColor.new 250 128 114),
  ("SALMON1", RGBColor.new 255 140 105),
  ("SALMON2", RGBColor.new 238 130 98),
  ("SALMON3", RGBColor.new 205 112 84),
  ("SALMON4", RGBColor.new 139 76 57),
  ("SANDYBROWN", RGBColor.new 244 164 96),
  ("SAPGREEN", RGBColor.new 48 128 20),
  ("SEAGREEN1", RGBColor.new 84 255 159),
  ("SEAGREEN2", RGBColor.new 78 238 148),
  ("SEAGREEN3", RGBColor.new 67 205 128),
  ("SEAGREEN4", RGBColor.new 46 139 87),
  ("SEASHELL1", RGBColor.new 255 245 238),
  ("SEASHELL2", RGBColor.new 238 229 222),
  ("SEASHELL3", RGBColor.new 205 197 191),
  ("SEASHELL4", RGBColor.new 139 134 130),
  ("SEPIA", RGBColor.new 94 38 18),
  ("SGIBEET", RGBColor.new 142 56 142),
  ("SGIBRIGHTGRAY", RGBColor.new 197 193 170),
  ("SGICHARTREUSE", RGBColor.new 113 198 113),
  ("SGIDARKGRAY", RGBColor.new 85 85 85),
  ("SGIGRAY12", RGBColor.new 30 30 30),
  ("SGIGRAY16", RGBColor.new 40 40 40),
  ("SGIGRAY32", RGBColor.new 81 81 81),
  ("SGIGRAY36", RGBColor.new 91 91 91),
  ("SGIGRAY52", RGBColor.new 132 132 132),
  ("SGIGRAY56", RGBColor.new 142 142 142),
  ("SGIGRAY72", RGBColor.new 183 183 183),
  ("SGIGRAY76", RGBColor.new 193 193 193),
  ("SGIGRAY92", RGBColor.new 234 234 234),
  ("SGIGRAY96", RGBColor.new 244 244 244),
  ("SGILIGHTBLUE", RGBColor.new 125 158 192),
  ("SGILIGHTGRAY", RGBColor.new 170 170 170),
  ("SGIOLIVEDRAB", RGBColor.new 142 142 56),
  ("SGISALMON", RGBColor.new 198 113 113),
  ("SGISLATEBLUE", RGBColor.new 113 113 198),
  ("SGITEAL", RGBColor.new 56 142 142),
  ("SIENNA", RGBColor.new 160 82 45),
  ("SIENNA1", RGBColor.new 255 130 71),
  ("SIENNA2", RGBColor.new 238 121 66),
  ("SIENNA3", RGBColor.new 205 104 57),
  ("SIENNA4", RGBColor.new 139 71 38),
  ("SILVER", RGBColor.new 192 192 192),
  ("SKYBLUE", RGBColor.new 135 206 235),
  ("SKYBLUE1", RGBColor.new 135 206 255),
  ("SKYBLUE2", RGBColor.new 126 192 238),
  ("SKYBLUE3", RGBColor.new 108 166 205),
  ("SKYBLUE4", RGBColor.new 74 112 139),
  ("SLATEBLUE", RGBColor.new 106 90 205),
  ("SLATEBLUE1", RGBColor.new 131 111 255),
  ("SLATEBLUE2", RGBColor.new 122 103 238),
  ("SLATEBLUE3", RGBColor.new 105 89 205),
  ("SLATEBLUE4", RGBColor.new 71 60 139),
  ("SLATEGRAY", RGBColor.new 112 128 144),
  ("SLATEGRAY1", RGBColor.new 198 226 255),
  ("SLATEGRAY2", RGBColor.new 185 211 238),
  ("SLATEGRAY3", RGBColor.new 159 182 205),
  ("SLATEGRAY4", RGBColor.new 108 123 139),
  ("SNOW1", RGBColor.new 255 250 250),
  ("SNOW2", RGBColor.new 238 233 233),
  ("SNOW3", RGBColor.new 205 201 201),
  ("SNOW4", RGBColor.new 139 137 137),
  ("SPRINGGREEN", RGBColor.new 0 255 127),
  ("SPRINGGREEN1", RGBColor.new 0 238 118),
  ("SPRINGGREEN2", RGBColor.new 0 205 102),
  ("SPRINGGREEN3", RGBColor.new 0 139 69),
  ("STEELBLUE", RGBColor.new 70 130 180),
  ("STEELBLUE1", RGBColor.new 99 184 255),
  ("STEELBLUE2", RGBColor.new 92 172 238),
  ("STEELBLUE3", RGBColor.new 79 148 205),
  ("STEELBLUE4", RGBColor.new 54 100 139),
  ("TAN", RGBColor.new 210 180 140),
  ("TAN1", RGBColor.new 255 165 79),
  ("TAN2", RGBColor.new 238 154 73),
  ("TAN3", RGBColor.new 205 133 63),
  ("TAN4", RGBColor.new 139 90 43),
  ("TEAL", RGBColor.new 0 128 128),
  ("THISTLE", RGBColor.new 216 191 216),
  ("THISTLE1", RGBColor.new 255 225 255),
  ("THISTLE2", RGBColor.new 238 210 238),
  ("THISTLE3", RGBColor.new 205 181 205),
  ("THISTLE4", RGBColor.new 139 123 139),
  ("TOMATO1", RGBColor.new 255 99 71),
  ("TOMATO2", RGBColor.new 238 92 66),
  ("TOMATO3", RGBColor.new 205 79 57),
  ("TOMATO4", RGBColor.new 139 54 38),
  ("TURQUOISE", RGBColor.new 64 224 208),
  ("TURQUOISE1", RGBColor.new 0 245 255),
  ("TURQUOISE2", RGBColor.new 0 229 238),
  ("TURQUOISE3", RGBColor.new 0 197 205),
  ("TURQUOISE4", RGBColor.new 0 134 139),
  ("TURQUOISEBLUE", RGBColor.new 0 199 140),
  ("VIOLET", RGBColor.new 238 130 238),
  ("VIOLETRED", RGBColor.new 208 32 144),
  ("VIOLETRED1", RGBColor.new 255 62 150),
  ("VIOLETRED2", RGBColor.new 238 58 140),
  ("VIOLETRED3", RGBColor.new 205 50 120),
  ("VIOLETRED4", RGBColor.new 139 34 82),
  ("WARMGREY", RGBColor.new 128 128 105),
  ("WHEAT", RGBColor.new 245 222 179),
  ("WHEAT1", RGBColor.new 255 231 186),
  ("WHEAT2", RGBColor.new 238 216 174),
  ("WHEAT3", RGBColor.new 205 186 150),
  ("WHEAT4", RGBColor.new 139 126 102),
  ("WHITE", RGBColor.new 255 255 255),
  ("WHITESMOKE", RGBColor.new 245 245 245),
  ("YELLOW1", RGBColor.new 255 255 0),
  ("YELLOW2", RGBColor.new 238 238 0),
  ("YELLOW3", RGBColor.new 205 205 0),
  ("YELLOW4", RGBColor.new 139 139 0)]

/-- Modelled from the spec: name-indexed lookup in the named color table.
The `Enum` base class of `RGB` (`nikocraft/utils/enum.py`) is not among the
given sources; per the spec the table is a "name-indexed read-only registry"
where "lookup by name is a direct mapping access" and "an unknown name fails
with a 'not found' condition" (modelled by `none`). -/
def RGB.lookup (name : String) : Option RGBColor :=
  (RGB.table.find? (fun p => p.1 == name)).map (fun p => p.2)

/-- Modelled from the spec: a drawing surface (an external `pygame.Surface`
collaborator, not part of this repository), exposing its pixel dimensions. -/
structure Surface where
  width : ℕ
  height : ℕ
deriving DecidableEq

/-- `pygame.Surface.get_width`. -/
def Surface.get_width (s : Surface) : ℕ := s.width

/-- `pygame.Surface.get_height`. -/
def Surface.get_height (s : Surface) : ℕ := s.height

/-- Modelled from the spec: the owning `Window` collaborator
(`nikocraft/window/window.py` is not among the given sources); the Scene
accessors under proof only use its live surface `screen`. -/
structure Window where
  screen : Surface

/-- Modelled from the spec: the 2D vector type `Vec`
(`nikocraft/window/vector2d.py` is not among the given sources); the spec
describes `dimension` as "a 2D vector of width and height". -/
structure Vec where
  x : ℚ
  y : ℚ
deriving DecidableEq

/-- The `Scene` class state of `scene.py`: the owning window, the argument
mapping, the `screen_cache` flag and the private cached surface `_screen`
(which is `None` until a subclass allocates it).  Argument values are an
arbitrary type `V` because Python's `args: dict` is heterogeneous. -/
structure Scene (V : Type) where
  window : Window
  args : List (String × V)
  screen_cache : Bool
  _screen : Option Surface

/-- `Scene.__init__(self, window, args=None)`: stores the window, stores
`{}` when `args` is `None` and the given mapping otherwise, and initializes
`screen_cache = False` and `_screen = None`. -/
def Scene.make {V : Type} (window : Window) (args : Option (List (String × V))) : Scene V :=
  ⟨window, match args with | none => [] | some a => a, false, none⟩

/-- `Scene.screen`: `self._screen if self.screen_cache else self.window.screen`
(the window's surface is always present, hence wrapped in `some`). -/
def Scene.screen {V : Type} (s : Scene V) : Option Surface :=
  if s.screen_cache then s._screen else some s.window.screen

/-- `Scene.width`: `self.window.screen.get_width()`. -/
def Scene.width {V : Type} (s : Scene V) : ℕ :=
  s.window.screen.get_width

/-- `Scene.height`: `self.window.screen.get_height()`. -/
def Scene.height {V : Type} (s : Scene V) : ℕ :=
  s.window.screen.get_height

/-- `Scene.dimension`: `Vec(self.window.screen.get_width(), self.window.screen.get_height())`. -/
def Scene.dimension {V : Type} (s : Scene V) : Vec :=
  ⟨s.window.screen.get_width, s.window.screen.get_height⟩

theorem pyRound_intCast (n : ℤ) : pyRound (n : ℚ) = n := by
  norm_num [pyRound]

theorem new_intCast (r g b : ℤ) : RGBColor.new r g b = ⟨r, g, b⟩ := by
  simp [RGBColor.new, pyRound_intCast]

theorem clampVal_idem (n : ℤ) : clampVal (clampVal n) = clampVal n := by
  simp only [clampVal]
  split_ifs <;> omega

theorem clamp_eq (c : RGBColor) :
    c.clamp = ⟨clampVal c.red, clampVal c.green, clampVal c.blue⟩ := by
  simp [RGBColor.clamp, RGBColor.new, pyRound_intCast]

theorem add_eq (a b : RGBColor) :
    a.add b = ⟨clampVal (a.red + b.red), clampVal (a.green + b.green), clampVal (a.blue + b.blue)⟩ := by
  simp only [RGBColor.add, clamp_eq, RGBColor.new, pyRound_intCast]

theorem sub_eq (a b : RGBColor) :
    a.sub b = ⟨clampVal (a.red - b.red), clampVal (a.green - b.green), clampVal (a.blue - b.blue)⟩ := by
  simp only [RGBColor.sub, clamp_eq, RGBColor.new, pyRound_intCast]

theorem mul_eq (c : RGBColor) (f : ℚ) :
    c.mul f = ⟨clampVal (pyRound (c.red * f)), clampVal (pyRound (c.green * f)),
      clampVal (pyRound (c.blue * f))⟩ := by
  simp [RGBColor.mul, clamp_eq, RGBColor.new]

theorem mix_eq (a b : RGBColor) :
    a.mix b = ⟨clampVal (pyRound ((clampVal (a.red + b.red) : ℚ) * 0.5)),
      clampVal (pyRound ((clampVal (a.green + b.green) : ℚ) * 0.5)),
      clampVal (pyRound ((clampVal (a.blue + b.blue) : ℚ) * 0.5))⟩ := by
  simp [RGBColor.mix, add_eq, mul_eq, clamp_eq, clampVal_idem]

theorem removeHash_of_not_mem (l : List Char) (h : '#' ∉ l) : removeHash l = l := by
  induction l with
  | nil => rfl
  | cons c rest ih =>
    have hc : ¬(c = '#') := fun he => h (he ▸ List.mem_cons_self _ _)
    have hr : '#' ∉ rest := fun hm => h (List.mem_cons_of_mem _ hm)
    simp only [removeHash, if_neg hc]
    rw [ih hr]

theorem not_mem_removeHash (l : List Char) : '#' ∉ removeHash l := by
  induction l with
  | nil => simp [removeHash]
  | cons c rest ih =>
    by_cases hc : c = '#'
    · simp only [removeHash, if_pos hc]
      exact ih
    · simp only [removeHash, if_neg hc]
      intro hm
      rcases List.mem_cons.mp hm with h1 | h1
      · exact hc h1.symm
      · exact ih h1

theorem removeZeroX_of_not_mem : ∀ l : List Char, 'x' ∉ l → removeZeroX l = l
  | [], _ => rfl
  | [_], _ => rfl
  | c1 :: c2 :: rest, h => by
    have hp : ¬(c1 = '0' ∧ c2 = 'x') := by
      rintro ⟨-, h2⟩
      exact h (by simp [h2])
    have h2 : 'x' ∉ c2 :: rest := fun hm => h (List.mem_cons_of_mem _ hm)
    simp only [removeZeroX, if_neg hp]
    rw [removeZeroX_of_not_mem (c2 :: rest) h2]

theorem removeZeroX_of_hasZeroX : ∀ l : List Char, hasZeroX l = false → removeZeroX l = l
  | [], _ => rfl
  | [_], _ => rfl
  | c1 :: c2 :: rest, h => by
    rw [hasZeroX, Bool.or_eq_false_iff] at h
    have hp : ¬(c1 = '0' ∧ c2 = 'x') := by
      rintro ⟨h1, h2⟩
      simp [h1, h2] at h
    simp only [removeZeroX, if_neg hp]
    rw [removeZeroX_of_hasZeroX (c2 :: rest) h.2]

theorem mem_of_mem_removeZeroX : ∀ (l : List Char) (c : Char), c ∈ removeZeroX l → c ∈ l
  | [], _, h => h
  | [_], _, h => h
  | c1 :: c2 :: rest, c, h => by
    by_cases hp : c1 = '0' ∧ c2 = 'x'
    · simp only [removeZeroX, if_pos hp] at h
      exact List.mem_cons_of_mem _ (List.mem_cons_of_mem _ (mem_of_mem_removeZeroX rest c h))
    · simp only [removeZeroX, if_neg hp] at h
      rcases List.mem_cons.mp h with h1 | h1
      · exact h1 ▸ List.mem_cons_self _ _
      · exact List.mem_cons_of_mem _ (mem_of_mem_removeZeroX (c2 :: rest) c h1)

set_option maxRecDepth 8192 in
theorem fmt02x_spec : ∀ n : ℕ, n < 256 →
    (fmt02x (n : ℤ)).length = 2 ∧
    (∀ c ∈ fmt02x (n : ℤ), c ∈ lowercaseHexDigits) ∧
    '#' ∉ fmt02x (n : ℤ) ∧ 'x' ∉ fmt02x (n : ℤ) ∧
    intBase16 (fmt02x (n : ℤ)) = some (n : ℤ) := by decide

theorem fmt02x_specZ (n : ℤ) (h0 : 0 ≤ n) (h1 : n ≤ 255) :
    (fmt02x n).length = 2 ∧
    (∀ c ∈ fmt02x n, c ∈ lowercaseHexDigits) ∧
    '#' ∉ fmt02x n ∧ 'x' ∉ fmt02x n ∧
    intBase16 (fmt02x n) = some n := by
  have hn : n = ((n.toNat : ℕ) : ℤ) := (Int.toNat_of_nonneg h0).symm
  rw [hn]
  exact fmt02x_spec n.toNat (by omega)

theorem cleanedOf_mk_hash_cons (l : List Char) (hH : '#' ∉ l) (hx : 'x' ∉ l) :
    cleanedOf (String.mk ('#' :: l)) = l := by
  show removeZeroX (removeHash ('#' :: l)) = l
  rw [show removeHash ('#' :: l) = removeHash l by simp [removeHash]]
  rw [removeHash_of_not_mem l hH, removeZeroX_of_not_mem l hx]

/-- Claim C4: for every pair of colors a and b with integer channels, each
channel of a + b equals clamp of the sum of the corresponding channels of a
and b, independently, and each channel of a - b equals clamp of the
corresponding difference, where clamp clips to [0, 255]. -/
theorem claim_c4 (a b : RGBColor) :
    (a.add b).red = clampVal (a.red + b.red) ∧
    (a.add b).green = clampVal (a.green + b.green) ∧
    (a.add b).blue = clampVal (a.blue + b.blue) ∧
    (a.sub b).red = clampVal (a.red - b.red) ∧
    (a.sub b).green = clampVal (a.green - b.green) ∧
    (a.sub b).blue = clampVal (a.blue - b.blue) := by
  simp [add_eq, sub_eq]

/-- Claim C5: clamp returns a color whose channels are the original
channels independently clipped to [0, 255] (below 0 becomes 0, above 255
becomes 255, in-range unchanged — this is exactly `clampVal`); clamp is
idempotent; and Color(300, -10, 128).clamp() = Color(255, 0, 128). -/
theorem claim_c5 (c : RGBColor) :
    c.clamp.red = clampVal c.red ∧
    c.clamp.green = clampVal c.green ∧
    c.clamp.blue = clampVal c.blue ∧
    c.clamp.clamp = c.clamp ∧
    (RGBColor.new 300 (-10) 128).clamp = (⟨255, 0, 128⟩ : RGBColor) := by
  have h1 : RGBColor.new 300 (-10) 128 = ⟨300, -10, 128⟩ := by
    simp only [RGBColor.new]
    norm_num [pyRound]
  refine ⟨by simp [clamp_eq], by simp [clamp_eq], by simp [clamp_eq], ?_, ?_⟩
  · rw [clamp_eq c, clamp_eq]
    simp [clampVal_idem]
  · rw [h1, clamp_eq]
    norm_num [clampVal]

set_option maxRecDepth 100000 in
/-- Claim C7: in the named color table, BLACK is Color(0,0,0), WHITE is
Color(255,255,255), FIREBRICK1 is Color(255,48,48), and looking up a name
not in the table (NOTACOLOR) fails with a not-found condition. -/
theorem claim_c7 :
    RGB.lookup ("BLACK") = some (RGBColor.new 0 0 0) ∧
    RGB.lookup ("WHITE") = some (RGBColor.new 255 255 255) ∧
    RGB.lookup ("FIREBRICK1") = some (RGBColor.new 255 48 48) ∧
    RGB.lookup ("NOTACOLOR") = none :=
  ⟨rfl, rfl, rfl, rfl⟩

/-- Claim C8: constructing a Scene with no args (args = None) yields a
Scene whose argument mapping is empty; a supplied args mapping is stored
as-is. -/
theorem claim_c8 (V : Type) (w : Window) (a : List (String × V)) :
    (Scene.make w (none : Option (List (String × V)))).args = [] ∧
    (Scene.make w (some a)).args = a :=
  ⟨rfl, rfl⟩

/-- Claim C10: the width, height and dimension accessors of a Scene always
read the window's live surface, whatever the screen_cache flag and cached
surface hold; the screen accessor returns the private cached surface when
screen_cache is true and the window's surface when it is false; and a
freshly constructed Scene has screen_cache false, so its screen is the
window's surface. -/
theorem claim_c10 (V : Type) (s : Scene V) (b : Bool) (p : Option Surface) (w : Window) :
    ((⟨s.window, s.args, b, p⟩ : Scene V).width = s.window.screen.get_width ∧
     (⟨s.window, s.args, b, p⟩ : Scene V).height = s.window.screen.get_height ∧
     (⟨s.window, s.args, b, p⟩ : Scene V).dimension =
       (⟨s.window.screen.get_width, s.window.screen.get_height⟩ : Vec) ∧
     (⟨s.window, s.args, b, p⟩ : Scene V).screen = (if b then p else some s.window.screen)) ∧
    (Scene.make w (none : Option (List (String × V)))).screen_cache = false ∧
    (Scene.make w (none : Option (List (String × V)))).screen = some w.screen :=
  ⟨⟨rfl, rfl, rfl, rfl⟩, rfl, rfl⟩

/-- Claim C1 (counterexample): mix does NOT equal the component-wise
average clamped at the claim's own example — mixing white with white
yields Color(128,128,128), not Color(255,255,255), because `__add__`
clamps the sum to 255 before the multiplication by 0.5. -/
theorem claim_c1_counterexample :
    RGBColor.mix (RGBColor.new 255 255 255) (RGBColor.new 255 255 255) ≠
      RGBColor.new 255 255 255 := by
  have hw : RGBColor.new 255 255 255 = (⟨255, 255, 255⟩ : RGBColor) := by
    simp only [RGBColor.new]
    norm_num [pyRound]
  rw [hw, mix_eq]
  norm_num [clampVal, pyRound]

/-- Claim C1 (amended): mix(a, b) is ((a + b) * 0.5).clamp() where the
addition itself already clamps, so each channel of mix(a, b) is the
banker's rounding of clamp(a.channel + b.channel) * 0.5, clamped; in
particular mix(Color(255,255,255), Color(255,255,255)) = Color(128,128,128). -/
theorem claim_c1 (a b : RGBColor) :
    a.mix b = ((a.add b).mul 0.5).clamp ∧
    (a.mix b).red = clampVal (pyRound ((clampVal (a.red + b.red) : ℚ) * 0.5)) ∧
    (a.mix b).green = clampVal (pyRound ((clampVal (a.green + b.green) : ℚ) * 0.5)) ∧
    (a.mix b).blue = clampVal (pyRound ((clampVal (a.blue + b.blue) : ℚ) * 0.5)) ∧
    RGBColor.mix (RGBColor.new 255 255 255) (RGBColor.new 255 255 255) =
      RGBColor.new 128 128 128 := by
  have hw : RGBColor.new 255 255 255 = (⟨255, 255, 255⟩ : RGBColor) := by
    simp only [RGBColor.new]
    norm_num [pyRound]
  have h128 : RGBColor.new 128 128 128 = (⟨128, 128, 128⟩ : RGBColor) := by
    simp only [RGBColor.new]
    norm_num [pyRound]
  refine ⟨rfl, ?_, ?_, ?_, ?_⟩
  · rw [mix_eq]
  · rw [mix_eq]
  · rw [mix_eq]
  · rw [hw, h128, mix_eq]
    norm_num [clampVal, pyRound]

/-- Claim C6: true division and floor division of a color by a scalar fail
with a division-by-zero error exactly when the divisor is zero; with a
nonzero divisor they return a new color whose channels are divided, then
rounded (true division rounds with `round`, floor division floors), then
clamped. -/
theorem claim_c6 (c : RGBColor) (d : ℚ) :
    (c.truediv d = .error .zeroDivisionError ↔ d = 0) ∧
    (c.floordiv d = .error .zeroDivisionError ↔ d = 0) ∧
    (d ≠ 0 →
      c.truediv d = .ok ⟨clampVal (pyRound (c.red / d)), clampVal (pyRound (c.green / d)),
        clampVal (pyRound (c.blue / d))⟩ ∧
      c.floordiv d = .ok ⟨clampVal ⌊(c.red : ℚ) / d⌋, clampVal ⌊(c.green : ℚ) / d⌋,
        clampVal ⌊(c.blue : ℚ) / d⌋⟩) := by
  by_cases hd : d = 0
  · subst hd
    exact ⟨by simp [RGBColor.truediv], by simp [RGBColor.floordiv], fun hne => absurd rfl hne⟩
  · refine ⟨by simp [RGBColor.truediv, hd], by simp [RGBColor.floordiv, hd], fun _ => ⟨?_, ?_⟩⟩
    · simp only [RGBColor.truediv, if_neg hd, clamp_eq, RGBColor.new]
    · simp only [RGBColor.floordiv, if_neg hd, clamp_eq, RGBColor.new, pyRound_intCast]

/-- Claim C6 (witness): dividing Color(10, 20, 30) by the nonzero scalar 2
succeeds with Color(5, 10, 15) under both division operators. -/
theorem claim_c6_witness :
    RGBColor.truediv ⟨10, 20, 30⟩ 2 = .ok (⟨5, 10, 15⟩ : RGBColor) ∧
    RGBColor.floordiv ⟨10, 20, 30⟩ 2 = .ok (⟨5, 10, 15⟩ : RGBColor) := by
  have h := (claim_c6 ⟨10, 20, 30⟩ 2).2.2 (by norm_num)
  refine ⟨h.1.trans ?_, h.2.trans ?_⟩
  · norm_num [pyRound, clampVal]
  · norm_num [clampVal]

/-- Claim C2 (counterexample): from_hex does not fail on every cleaned
string shorter than 6 characters — the 5-character input "fffff" succeeds
(the third slice value[4:6] truncates to the single character "f"),
returning Color(255, 255, 15). -/
theorem claim_c2_counterexample :
    (cleanedOf ("fffff")).length < 6 ∧
    RGBColor.from_hex ("fffff") = .ok (⟨255, 255, 15⟩ : RGBColor) := by
  constructor
  · decide
  · have h0 : parse2 (cleanedOf ("fffff")) 0 = some 255 := by decide
    have h2 : parse2 (cleanedOf ("fffff")) 2 = some 255 := by decide
    have h4 : parse2 (cleanedOf ("fffff")) 4 = some 15 := by decide
    simp [RGBColor.from_hex, h0, h2, h4]
    simp only [RGBColor.new]
    norm_num [pyRound]

/-- Claim C2 (amended): from_hex fails with a parsing error exactly when
one of the three slices of the cleaned string at offsets 0-1, 2-3, 4-5
(each truncated at the end of the string, so the last may hold fewer than
2 characters) is rejected by Python's `int(_, 16)`; in every other case it
succeeds.  In particular it fails whenever the cleaned string is shorter
than 5 (not 6) characters, since the third slice is then empty. -/
theorem claim_c2 (s : String) :
    (RGBColor.from_hex s = .error .valueError ↔
      parse2 (cleanedOf s) 0 = none ∨ parse2 (cleanedOf s) 2 = none ∨
        parse2 (cleanedOf s) 4 = none) ∧
    ((cleanedOf s).length < 5 → RGBColor.from_hex s = .error .valueError) := by
  have hiff : RGBColor.from_hex s = .error .valueError ↔
      parse2 (cleanedOf s) 0 = none ∨ parse2 (cleanedOf s) 2 = none ∨
        parse2 (cleanedOf s) 4 = none := by
    rcases h0 : parse2 (cleanedOf s) 0 with _ | r <;>
      rcases h2 : parse2 (cleanedOf s) 2 with _ | g <;>
        rcases h4 : parse2 (cleanedOf s) 4 with _ | v <;>
          simp [RGBColor.from_hex, h0, h2, h4]
  refine ⟨hiff, fun hlen => hiff.mpr (Or.inr (Or.inr ?_))⟩
  have hnil : (cleanedOf s).drop 4 = [] := List.drop_eq_nil_of_le (by omega)
  unfold parse2
  rw [hnil]
  rfl

/-- Claim C2 (witness): from_hex fails on "abc", whose cleaned form has
fewer than 5 characters. -/
theorem claim_c2_witness : RGBColor.from_hex ("abc") = .error .valueError :=
  (claim_c2 ("abc")).2 (by decide)

/-- Claim C9 (counterexample): the replacement of "0x" is a single
left-to-right pass, not a deletion of every occurrence until none remain:
cleaning "00xx123456" yields "0x123456" (which still contains "0x"), so
from_hex("00xx123456") fails even though from_hex("0x123456") succeeds —
the claimed equality between the two calls is false. -/
theorem claim_c9_counterexample :
    removeZeroX (removeHash ("00xx123456").data) = ("0x123456").data ∧
    RGBColor.from_hex ("00xx123456") = .error .valueError ∧
    RGBColor.from_hex ("0x123456") = .ok (⟨18, 52, 86⟩ : RGBColor) := by
  refine ⟨by decide, by decide, ?_⟩
  have h0 : parse2 (cleanedOf ("0x123456")) 0 = some 18 := by decide
  have h2 : parse2 (cleanedOf ("0x123456")) 2 = some 52 := by decide
  have h4 : parse2 (cleanedOf ("0x123456")) 4 = some 86 := by decide
  simp [RGBColor.from_hex, h0, h2, h4]
  simp only [RGBColor.new]
  norm_num [pyRound]

/-- Claim C9 (amended): from_hex removes '#' and '0x' anywhere in its
input, not only as a leading prefix, but each by a single left-to-right
pass ('#' first, then '0x'); whenever the cleaned string contains no
remaining '0x' occurrence, from_hex of the original string equals from_hex
of the cleaned string; in particular from_hex("ff00#00") and
from_hex("ff0x0000") both succeed and equal Color(255, 0, 0) =
from_hex("ff0000"). -/
theorem claim_c9 (s : String) :
    (hasZeroX (cleanedOf s) = false →
      RGBColor.from_hex s = RGBColor.from_hex (String.mk (cleanedOf s))) ∧
    RGBColor.from_hex ("ff00#00") = .ok (⟨255, 0, 0⟩ : RGBColor) ∧
    RGBColor.from_hex ("ff0x0000") = .ok (⟨255, 0, 0⟩ : RGBColor) ∧
    RGBColor.from_hex ("ff0000") = .ok (⟨255, 0, 0⟩ : RGBColor) := by
  refine ⟨fun h => ?_, ?_, ?_, ?_⟩
  · have hH : '#' ∉ cleanedOf s := fun hm =>
      not_mem_removeHash s.data (mem_of_mem_removeZeroX _ _ hm)
    have h1 : cleanedOf (String.mk (cleanedOf s)) = cleanedOf s := by
      show removeZeroX (removeHash (cleanedOf s)) = cleanedOf s
      rw [removeHash_of_not_mem _ hH, removeZeroX_of_hasZeroX _ h]
    simp only [RGBColor.from_hex, h1]
  · have h0 : parse2 (cleanedOf ("ff00#00")) 0 = some 255 := by decide
    have h2 : parse2 (cleanedOf ("ff00#00")) 2 = some 0 := by decide
    have h4 : parse2 (cleanedOf ("ff00#00")) 4 = some 0 := by decide
    simp [RGBColor.from_hex, h0, h2, h4]
    simp only [RGBColor.new]
    norm_num [pyRound]
  · have h0 : parse2 (cleanedOf ("ff0x0000")) 0 = some 255 := by decide
    have h2 : parse2 (cleanedOf ("ff0x0000")) 2 = some 0 := by decide
    have h4 : parse2 (cleanedOf ("ff0x0000")) 4 = some 0 := by decide
    simp [RGBColor.from_hex, h0, h2, h4]
    simp only [RGBColor.new]
    norm_num [pyRound]
  · have h0 : parse2 (cleanedOf ("ff0000")) 0 = some 255 := by decide
    have h2 : parse2 (cleanedOf ("ff0000")) 2 = some 0 := by decide
    have h4 : parse2 (cleanedOf ("ff0000")) 4 = some 0 := by decide
    simp [RGBColor.from_hex, h0, h2, h4]
    simp only [RGBColor.new]
    norm_num [pyRound]

/-- Claim C9 (witness): the cleaned form of "ff0x0000" contains no further
"0x", so from_hex("ff0x0000") equals from_hex of its cleaned string. -/
theorem claim_c9_witness :
    RGBColor.from_hex ("ff0x0000") =
      RGBColor.from_hex (String.mk (cleanedOf ("ff0x0000"))) :=
  (claim_c9 ("ff0x0000")).1 (by decide)

/-- Claim C3: for all integers r, g, b in [0, 255], Color(r,g,b).hex is
the 7-character string consisting of '#' followed by the three channels,
each formatted as exactly two lowercase zero-padded hex digits, and
from_hex(Color(r,g,b).hex) = Color(r,g,b) (round-trip). -/
theorem claim_c3 (r g b : ℤ) (hr0 : 0 ≤ r) (hr1 : r ≤ 255) (hg0 : 0 ≤ g) (hg1 : g ≤ 255)
    (hb0 : 0 ≤ b) (hb1 : b ≤ 255) :
    (RGBColor.new r g b).hex.data = '#' :: (fmt02x r ++ fmt02x g ++ fmt02x b) ∧
    (RGBColor.new r g b).hex.length = 7 ∧
    (fmt02x r).length = 2 ∧ (fmt02x g).length = 2 ∧ (fmt02x b).length = 2 ∧
    (∀ ch ∈ fmt02x r ++ fmt02x g ++ fmt02x b, ch ∈ lowercaseHexDigits) ∧
    RGBColor.from_hex (RGBColor.new r g b).hex = .ok (RGBColor.new r g b) := by
  obtain ⟨hrl, hrm, hrh, hrx, hrp⟩ := fmt02x_specZ r hr0 hr1
  obtain ⟨hgl, hgm, hgh, hgx, hgp⟩ := fmt02x_specZ g hg0 hg1
  obtain ⟨hbl, hbm, hbh, hbx, hbp⟩ := fmt02x_specZ b hb0 hb1
  have hnew : RGBColor.new (r : ℚ) g b = ⟨r, g, b⟩ := new_intCast r g b
  have hhex : (RGBColor.new (r : ℚ) g b).hex =
      String.mk ('#' :: (fmt02x r ++ fmt02x g ++ fmt02x b)) := by
    rw [hnew]
    rfl
  have hdata : (RGBColor.new (r : ℚ) g b).hex.data =
      '#' :: (fmt02x r ++ fmt02x g ++ fmt02x b) := by
    rw [hhex]
  have hH : '#' ∉ fmt02x r ++ fmt02x g ++ fmt02x b := by
    intro hm
    rcases List.mem_append.mp hm with hm1 | hm1
    · rcases List.mem_append.mp hm1 with hm2 | hm2
      · exact hrh hm2
      · exact hgh hm2
    · exact hbh hm1
  have hX : 'x' ∉ fmt02x r ++ fmt02x g ++ fmt02x b := by
    intro hm
    rcases List.mem_append.mp hm with hm1 | hm1
    · rcases List.mem_append.mp hm1 with hm2 | hm2
      · exact hrx hm2
      · exact hgx hm2
    · exact hbx hm1
  have hclean : cleanedOf (RGBColor.new (r : ℚ) g b).hex =
      fmt02x r ++ fmt02x g ++ fmt02x b := by
    rw [hhex]
    exact cleanedOf_mk_hash_cons _ hH hX
  obtain ⟨a1, a2, hra⟩ := List.length_eq_two.mp hrl
  obtain ⟨g1, g2, hga⟩ := List.length_eq_two.mp hgl
  obtain ⟨v1, v2, hba⟩ := List.length_eq_two.mp hbl
  have h0 : parse2 (cleanedOf (RGBColor.new (r : ℚ) g b).hex) 0 = some r := by
    unfold parse2
    rw [hclean, hra, hga, hba]
    rw [show (([a1, a2] ++ [g1, g2] ++ [v1, v2]).drop 0).take 2 = [a1, a2] from rfl]
    rw [← hra]
    exact hrp
  have h2 : parse2 (cleanedOf (RGBColor.new (r : ℚ) g b).hex) 2 = some g := by
    unfold parse2
    rw [hclean, hra, hga, hba]
    rw [show (([a1, a2] ++ [g1, g2] ++ [v1, v2]).drop 2).take 2 = [g1, g2] from rfl]
    rw [← hga]
    exact hgp
  have h4 : parse2 (cleanedOf (RGBColor.new (r : ℚ) g b).hex) 4 = some b := by
    unfold parse2
    rw [hclean, hra, hga, hba]
    rw [show (([a1, a2] ++ [g1, g2] ++ [v1, v2]).drop 4).take 2 = [v1, v2] from rfl]
    rw [← hba]
    exact hbp
  refine ⟨hdata, ?_, hrl, hgl, hbl, ?_, ?_⟩
  · rw [show (RGBColor.new (r : ℚ) g b).hex.length =
      ((RGBColor.new (r : ℚ) g b).hex.data).length from rfl, hdata]
    simp [hrl, hgl, hbl]
  · intro ch hch
    rcases List.mem_append.mp hch with hm1 | hm1
    · rcases List.mem_append.mp hm1 with hm2 | hm2
      · exact hrm ch hm2
      · exact hgm ch hm2
    · exact hbm ch hm1
  · simp only [RGBColor.from_hex, h0, h2, h4]

/-- Claim C3 (witness): the round-trip at Color(26, 43, 60), the spec's
`0x1a2b3c` example: its hex string has 7 characters and parses back to the
same color. -/
theorem claim_c3_witness :
    (RGBColor.new 26 43 60).hex.length = 7 ∧
    RGBColor.from_hex (RGBColor.new 26 43 60).hex = .ok (RGBColor.new 26 43 60) := by
  have h := claim_c3 26 43 60 (by norm_num) (by norm_num) (by norm_num) (by norm_num)
    (by norm_num) (by norm_num)
  have hc : RGBColor.new ((26 : ℤ) : ℚ) ((43 : ℤ) : ℚ) ((60 : ℤ) : ℚ) =
      RGBColor.new 26 43 60 := by
    norm_num
  rw [hc] at h
  exact ⟨h.2.1, h.2.2.2.2.2.2⟩
